import Mathlib

/-!
Verification of the Matrix MLS scraper (src/matrix-scraper.js).

The single source file is a linear Playwright script `scrapeMatrixMLS`:
launch a browser, open a page, then inside a try block navigate to the
Matrix login URL, wait for the `#Username` selector, sleep twice for the
human operator, and run an in-page extraction (`page.evaluate`); a catch
block prints any error; a finally block sleeps once more and closes the
browser.

The development below embeds the two parts the claims are about:

* the in-page extraction function (lines 38-57 of the source), over an
  explicit DOM model of table rows and cells; and
* the straight-line control flow of the script (launch / newPage /
  try-catch-finally), as a function from a per-step failure oracle to an
  observable run result.
-/

/-- A table cell (`td`). Its `textContent` may be `null` in the DOM,
so the text is an `Option String`. -/
structure Cell where
  text : Option String
deriving DecidableEq

/-- A table row (`tr`): its `class` attribute and its `td` children in
document order. -/
structure Row where
  className : String
  cells : List Cell
deriving DecidableEq

/-- A page DOM, reduced to its `tr` elements in document order; this is
all the extraction function inspects. -/
structure Page where
  rows : List Row
deriving DecidableEq

/-- The record built per matched row (lines 45-52 of the source): six
string fields. -/
structure PropertyListing where
  mlsNumber : String
  address : String
  price : String
  beds : String
  baths : String
  sqft : String
deriving DecidableEq

/-- Whether the pattern is a prefix of the character list. -/
def startsWithChars : List Char → List Char → Bool
  | [], _ => true
  | _ :: _, [] => false
  | p :: ps, c :: cs => p == c && startsWithChars ps cs

/-- Whether the pattern occurs as a contiguous substring of the character
list. -/
def hasSubChars (pat : List Char) : List Char → Bool
  | [] => pat.isEmpty
  | c :: cs => startsWithChars pat (c :: cs) || hasSubChars pat cs

/-- Substring containment on strings: the semantics of the CSS attribute
operator `*=` used in the selector. -/
def containsSubstring (s pat : String) : Bool := hasSubChars pat.data s.data

/-- Which rows the selector `tr[class*="SearchResult"]` (line 39) matches:
those whose class attribute contains `SearchResult` as a substring. -/
def rowMatches (r : Row) : Bool := containsSubstring r.className "SearchResult"

/-- JavaScript `String.prototype.trim`: strip whitespace from both ends. -/
def jsTrim (s : String) : String :=
  ⟨(((s.data.dropWhile Char.isWhitespace).reverse.dropWhile
      Char.isWhitespace).reverse)⟩

/-- JavaScript `x || d` on an optional string `x`: `undefined`/`null`
(here `none`) and the empty string are falsy and yield the default. -/
def jsOr (s : Option String) (d : String) : String :=
  match s with
  | none => d
  | some t => if t = "" then d else t

/-- The cell-field expression of lines 46-51:
`cells[i]?.textContent?.trim() || ''`. A missing cell or a `null` text
short-circuits to `undefined`, and `|| ''` turns that (or an empty trim)
into the empty string. -/
def getField (cells : List Cell) (i : Nat) : String :=
  jsOr (((cells.get? i).bind Cell.text).map jsTrim) ""

/-- The object literal pushed for a row (lines 45-52). -/
def rowRecord (r : Row) : PropertyListing :=
  { mlsNumber := getField r.cells 0
    address := getField r.cells 1
    price := getField r.cells 2
    beds := getField r.cells 3
    baths := getField r.cells 4
    sqft := getField r.cells 5 }

/-- The guard `cells.length > 0` of line 44, as a Boolean row predicate. -/
def hasCells (r : Row) : Bool := decide (r.cells.length > 0)

/-- The in-page extraction (lines 38-57): `querySelectorAll` returns the
matched rows in document order (the filter), and `forEach` pushes one
record per row passing the `cells.length > 0` guard (the conditional push
is a `filterMap`). -/
def scrapeProperties (p : Page) : List PropertyListing :=
  (p.rows.filter rowMatches).filterMap (fun row =>
    if hasCells row then some (rowRecord row) else none)

/-- Positional access to the six fields of a record, in the order of the
object literal. -/
def fieldAt (rec : PropertyListing) : Nat → String
  | 0 => rec.mlsNumber
  | 1 => rec.address
  | 2 => rec.price
  | 3 => rec.beds
  | 4 => rec.baths
  | _ => rec.sqft

/-- The awaited steps of the script, in program order. `launch` and
`newPage` (lines 6-11) happen before the try block; `gotoLogin` through
`extractStep` (lines 16-57) form the try body; `cleanupWaitStep` and
`closeStep` (lines 66-67) form the finally block. -/
inductive ScriptStep where
  | launch
  | newPage
  | gotoLogin
  | waitSelectorUsername
  | waitLoginTimeout
  | waitSearchTimeout
  | extractStep
  | cleanupWaitStep
  | closeStep
deriving DecidableEq

/-- The kinds of wait the script performs: a fixed-duration timer
(`waitForTimeout`) or an event-driven wait for a selector to appear
(`waitForSelector` with a timeout). -/
inductive WaitKind where
  | fixedTimeout (ms : Nat)
  | selectorWait (sel : String) (timeoutMs : Nat)
deriving DecidableEq

/-- The script steps in program order. -/
def scriptStepOrder : List ScriptStep :=
  [.launch, .newPage, .gotoLogin, .waitSelectorUsername, .waitLoginTimeout,
   .waitSearchTimeout, .extractStep, .cleanupWaitStep, .closeStep]

/-- The wait performed at a step, if any: line 19 is
`waitForSelector('#Username', { timeout: 10000 })`; lines 25, 33 and 66
are `waitForTimeout(30000)`, `waitForTimeout(20000)` and
`waitForTimeout(30000)`. -/
def waitOfStep : ScriptStep → Option WaitKind
  | .waitSelectorUsername => some (.selectorWait "#Username" 10000)
  | .waitLoginTimeout => some (.fixedTimeout 30000)
  | .waitSearchTimeout => some (.fixedTimeout 20000)
  | .cleanupWaitStep => some (.fixedTimeout 30000)
  | _ => none

/-- All waits the script performs, in program order. -/
def scriptWaits : List WaitKind := scriptStepOrder.filterMap waitOfStep

/-- Whether a wait is a fixed-duration timer. -/
def isFixedWait : WaitKind → Bool
  | .fixedTimeout _ => true
  | .selectorWait _ _ => false

/-- The observable outcome of one execution of `scrapeMatrixMLS`:
how many times the catch block printed an error (line 63), the property
count reported on success (line 59, `none` when the report line was never
reached), how many times the finally wait (line 66) and `browser.close()`
(line 67) ran, and the step whose exception escaped the function, if any. -/
structure RunResult where
  errorPrints : Nat
  reported : Option Nat
  cleanupWaitRuns : Nat
  closeRuns : Nat
  unhandled : Option ScriptStep
deriving DecidableEq

/-- Whether any step of the try body throws under the oracle. -/
def tryBodyFails (fails : ScriptStep → Bool) : Bool :=
  fails .gotoLogin || fails .waitSelectorUsername || fails .waitLoginTimeout
    || fails .waitSearchTimeout || fails .extractStep

/-- One execution of the script on page `p`, where `fails s = true` means
step `s` throws when executed. `launch` and `newPage` run before the try
block, so their exceptions escape with no cleanup. An exception in the
try body is caught by the catch block, which prints it once; the report
line runs only when the whole try body succeeded. The finally block then
runs its wait and `browser.close()`; if the finally wait throws, its
exception escapes and the close never runs. -/
def runScript (p : Page) (fails : ScriptStep → Bool) : RunResult :=
  if fails .launch then
    { errorPrints := 0, reported := none, cleanupWaitRuns := 0,
      closeRuns := 0, unhandled := some .launch }
  else if fails .newPage then
    { errorPrints := 0, reported := none, cleanupWaitRuns := 0,
      closeRuns := 0, unhandled := some .newPage }
  else
    let caught := tryBodyFails fails
    let rep : Option Nat :=
      if caught then none else some (scrapeProperties p).length
    let prints : Nat := if caught then 1 else 0
    if fails .cleanupWaitStep then
      { errorPrints := prints, reported := rep, cleanupWaitRuns := 1,
        closeRuns := 0, unhandled := some .cleanupWaitStep }
    else
      { errorPrints := prints, reported := rep, cleanupWaitRuns := 1,
        closeRuns := 1,
        unhandled := if fails .closeStep then some .closeStep else none }

/-- The oracle under which no step throws. -/
def noFailure : ScriptStep → Bool := fun _ => false

/-- The oracle under which exactly the given step throws. -/
def failOnly (s : ScriptStep) : ScriptStep → Bool := fun t => decide (t = s)

/-! Concrete pages used as witnesses and counterexamples. -/

/-- A matched row carrying the six example cell texts. -/
def rowFull : Row :=
  ⟨"SearchResultRow",
   [⟨some "M123"⟩, ⟨some "1 Main St"⟩, ⟨some "$500,000"⟩, ⟨some "3"⟩,
    ⟨some "2"⟩, ⟨some "1500"⟩]⟩

/-- A matched row with exactly two cells. -/
def rowTwoCells : Row := ⟨"SearchResultRow", [⟨some "M456"⟩, ⟨some "2 Oak Ave"⟩]⟩

/-- A matched row with zero `td` cells. -/
def rowNoCells : Row := ⟨"SearchResultRow", []⟩

/-- A matched row whose first cell text has surrounding whitespace and
whose only other cell has `null` text. -/
def rowWs : Row := ⟨"SearchResultRow", [⟨some "  M123 "⟩, ⟨none⟩]⟩

/-- A matched row whose first cell text is the empty string. -/
def rowEmptyText : Row := ⟨"SearchResultRow", [⟨some ""⟩]⟩

/-- A row the selector does not match. -/
def rowOther : Row := ⟨"HeaderRow", [⟨some "MLS#"⟩]⟩

/-! Helper lemmas, shared by the claim theorems below. -/

theorem filterMap_if_eq_map_filter {α β : Type} (f : α → β) (q : α → Bool)
    (l : List α) :
    l.filterMap (fun a => if q a then some (f a) else none)
      = (l.filter q).map f := by
  induction l with
  | nil => rfl
  | cons a t ih =>
    cases hq : q a <;>
      simp [List.filterMap_cons, List.filter_cons, hq, ih]

theorem scrapeProperties_eq (p : Page) :
    scrapeProperties p
      = ((p.rows.filter rowMatches).filter hasCells).map rowRecord :=
  filterMap_if_eq_map_filter rowRecord hasCells _

theorem fieldAt_rowRecord (r : Row) (i : Nat) (hi : i < 6) :
    fieldAt (rowRecord r) i = getField r.cells i := by
  match i, hi with
  | 0, _ => rfl
  | 1, _ => rfl
  | 2, _ => rfl
  | 3, _ => rfl
  | 4, _ => rfl
  | 5, _ => rfl

theorem getField_of_no_text {cells : List Cell} {i : Nat}
    (h : (cells.get? i).bind Cell.text = none) :
    getField cells i = "" := by
  unfold getField
  rw [h]
  rfl

theorem getField_of_text {cells : List Cell} {i : Nat} {s : String}
    (h : (cells.get? i).bind Cell.text = some s) :
    getField cells i = jsTrim s := by
  unfold getField
  rw [h]
  by_cases he : jsTrim s = "" <;> simp [jsOr, he]

/-! Claim theorems. -/

/-- Claim C1 counterexample: a page whose only row matches the selector
but has zero `td` cells. The page has one matching row, yet the extractor
returns no record at all, so it does not return exactly one record per
matching row. -/
theorem claim1_counterexample :
    ((Page.mk [rowNoCells]).rows.filter rowMatches).length = 1
    ∧ scrapeProperties ⟨[rowNoCells]⟩ = [] := by decide

/-- Claim C1 (amended): the extractor returns exactly one record per
matching row that has at least one `td` cell, in the document order of
those rows; matching rows with zero cells contribute no record. -/
theorem claim1_one_record_per_nonempty_matching_row (p : Page) :
    scrapeProperties p
      = ((p.rows.filter rowMatches).filter hasCells).map rowRecord
    ∧ (scrapeProperties p).length
      = ((p.rows.filter rowMatches).filter hasCells).length := by
  refine ⟨scrapeProperties_eq p, ?_⟩
  rw [scrapeProperties_eq p, List.length_map]

/-- Claim C2 counterexample: not every wait of the script is a
fixed-duration timer; the first wait is an event-driven suspension for
the selector `#Username` to appear. -/
theorem claim2_counterexample :
    scriptWaits.all isFixedWait = false
    ∧ WaitKind.selectorWait "#Username" 10000 ∈ scriptWaits := by decide

/-- Claim C2 (amended): the script performs exactly four waits, in order:
one event-driven selector wait (for `#Username`, with a 10000 ms timeout)
followed by three fixed-duration timers of 30000, 20000 and 30000 ms; so
every wait except the initial login-form wait is a fixed-duration timer. -/
theorem claim2_one_selector_wait_three_timers :
    scriptWaits
      = [WaitKind.selectorWait "#Username" 10000, WaitKind.fixedTimeout 30000,
         WaitKind.fixedTimeout 20000, WaitKind.fixedTimeout 30000]
    ∧ (scriptWaits.filter (fun w => ! isFixedWait w)).length = 1 := by decide

/-- Claim C3: in the record built from a row, the field at each position
0..5 is the empty string when the cell is absent or its text is `null`,
the empty string when the cell text is empty, and the trimmed text when
the cell has text. -/
theorem claim3_field_default_and_trim (r : Row) (i : Nat) (s : String)
    (hi : i < 6) :
    ((r.cells.get? i).bind Cell.text = none → fieldAt (rowRecord r) i = "")
    ∧ ((r.cells.get? i).bind Cell.text = some s →
        fieldAt (rowRecord r) i = jsTrim s)
    ∧ ((r.cells.get? i).bind Cell.text = some "" →
        fieldAt (rowRecord r) i = "") := by
  rw [fieldAt_rowRecord r i hi]
  exact ⟨fun h => getField_of_no_text h,
         fun h => getField_of_text h,
         fun h => (getField_of_text h).trans rfl⟩

/-- Claim C3 witness: on a concrete row, position 0 with text
`"  M123 "` yields the trimmed value, position 3 (no such cell) yields
the empty string, and a concrete empty cell text yields the empty
string. -/
theorem claim3_witness :
    fieldAt (rowRecord rowWs) 0 = jsTrim "  M123 "
    ∧ fieldAt (rowRecord rowWs) 3 = ""
    ∧ fieldAt (rowRecord rowEmptyText) 0 = "" :=
  ⟨(claim3_field_default_and_trim rowWs 0 "  M123 " (by decide)).2.1 (by decide),
   (claim3_field_default_and_trim rowWs 3 "x" (by decide)).1 (by decide),
   (claim3_field_default_and_trim rowEmptyText 0 "" (by decide)).2.2 (by decide)⟩

/-- Claim C4: a matched row with the six example cell texts yields the
example record, and a matched row with exactly two cells yields the two
texts and four empty strings. -/
theorem claim4_examples :
    scrapeProperties ⟨[rowFull]⟩
      = [{ mlsNumber := "M123", address := "1 Main St", price := "$500,000",
           beds := "3", baths := "2", sqft := "1500" }]
    ∧ scrapeProperties ⟨[rowTwoCells]⟩
      = [{ mlsNumber := "M456", address := "2 Oak Ave", price := "",
           beds := "", baths := "", sqft := "" }] := by decide

/-- Claim C5: on a page where no row matches the selector, the extractor
returns the empty list, and the fault-free run reports a count of zero
with no error printed and no escaping exception. -/
theorem claim5_no_match_is_silent_success (p : Page)
    (h : ∀ r ∈ p.rows, rowMatches r = false) :
    scrapeProperties p = []
    ∧ (runScript p noFailure).reported = some 0
    ∧ (runScript p noFailure).errorPrints = 0
    ∧ (runScript p noFailure).unhandled = none := by
  have hempty : p.rows.filter rowMatches = [] := by
    rw [List.filter_eq_nil_iff]
    intro r hr
    simp [h r hr]
  have h1 : scrapeProperties p = [] := by
    unfold scrapeProperties
    rw [hempty]
    rfl
  refine ⟨h1, ?_, ?_, ?_⟩ <;>
    simp [runScript, noFailure, tryBodyFails, h1]

/-- Claim C5 witness: a concrete one-row page whose row does not match. -/
theorem claim5_witness :
    scrapeProperties ⟨[rowOther]⟩ = []
    ∧ (runScript ⟨[rowOther]⟩ noFailure).reported = some 0
    ∧ (runScript ⟨[rowOther]⟩ noFailure).errorPrints = 0
    ∧ (runScript ⟨[rowOther]⟩ noFailure).unhandled = none :=
  claim5_no_match_is_silent_success ⟨[rowOther]⟩ (by decide)

/-- Claim C6: when any step of the try body (navigation, the selector
wait, either manual-login timer, or extraction) throws, the catch block
prints the error exactly once and the report line never runs, so no
record count is reported. -/
theorem claim6_caught_once_no_partial (p : Page) (fails : ScriptStep → Bool)
    (h1 : fails .launch = false) (h2 : fails .newPage = false)
    (h3 : tryBodyFails fails = true) :
    (runScript p fails).errorPrints = 1
    ∧ (runScript p fails).reported = none := by
  by_cases hc : fails .cleanupWaitStep <;>
    simp [runScript, h1, h2, h3, hc]

/-- Claim C6 witness: the run in which exactly the extraction step
throws prints one error and reports no records. -/
theorem claim6_witness :
    (runScript ⟨[rowFull]⟩ (failOnly ScriptStep.extractStep)).errorPrints = 1
    ∧ (runScript ⟨[rowFull]⟩ (failOnly ScriptStep.extractStep)).reported
        = none :=
  claim6_caught_once_no_partial ⟨[rowFull]⟩ (failOnly ScriptStep.extractStep)
    (by decide) (by decide) (by decide)

/-- Claim C7 counterexample: when `browser.newPage()` (line 11, before
the try block) throws, the cleanup path runs zero times: neither the
finally wait nor `browser.close()` executes, and the exception escapes,
so the browser is not released. -/
theorem claim7_counterexample :
    (runScript ⟨[rowFull]⟩ (failOnly ScriptStep.newPage)).cleanupWaitRuns = 0
    ∧ (runScript ⟨[rowFull]⟩ (failOnly ScriptStep.newPage)).closeRuns = 0
    ∧ (runScript ⟨[rowFull]⟩ (failOnly ScriptStep.newPage)).unhandled
        = some ScriptStep.newPage := by decide

/-- Claim C7 (amended): provided browser launch and page creation succeed
and the finally wait itself does not throw, the cleanup path (final wait
followed by `browser.close()`) executes exactly once, whether the try
body succeeds or any of its steps throws; a failure in launch or page
creation (which run before the try block), or in the finally wait,
bypasses the close. -/
theorem claim7_cleanup_once (p : Page) (fails : ScriptStep → Bool)
    (h1 : fails .launch = false) (h2 : fails .newPage = false)
    (h3 : fails .cleanupWaitStep = false) :
    (runScript p fails).cleanupWaitRuns = 1
    ∧ (runScript p fails).closeRuns = 1 := by
  simp [runScript, h1, h2, h3]

/-- Claim C7 witness: the run in which exactly the extraction step throws
still performs the cleanup wait and the browser close exactly once. -/
theorem claim7_witness :
    (runScript ⟨[rowFull]⟩ (failOnly ScriptStep.extractStep)).cleanupWaitRuns = 1
    ∧ (runScript ⟨[rowFull]⟩ (failOnly ScriptStep.extractStep)).closeRuns = 1 :=
  claim7_cleanup_once ⟨[rowFull]⟩ (failOnly ScriptStep.extractStep)
    (by decide) (by decide) (by decide)

/-- Claim C8: every record the extractor produces comes from a matching
row with at least one cell, and each of its exactly six fields
(mlsNumber, address, price, beds, baths, sqft) is the string produced by
the guarded cell-field expression at positions 0 through 5. -/
theorem claim8_six_string_fields (p : Page) (rec : PropertyListing)
    (h : rec ∈ scrapeProperties p) :
    ∃ r : Row, r ∈ p.rows ∧ rowMatches r = true ∧ 0 < r.cells.length
      ∧ rec.mlsNumber = getField r.cells 0
      ∧ rec.address = getField r.cells 1
      ∧ rec.price = getField r.cells 2
      ∧ rec.beds = getField r.cells 3
      ∧ rec.baths = getField r.cells 4
      ∧ rec.sqft = getField r.cells 5 := by
  rw [scrapeProperties_eq] at h
  obtain ⟨r, hr, hrec⟩ := List.mem_map.mp h
  obtain ⟨hr1, hc⟩ := List.mem_filter.mp hr
  obtain ⟨hr0, hm⟩ := List.mem_filter.mp hr1
  subst hrec
  unfold hasCells at hc
  exact ⟨r, hr0, hm, of_decide_eq_true hc, rfl, rfl, rfl, rfl, rfl, rfl⟩

/-- Claim C8 witness: the record extracted from the concrete full row is
traced back to that row and its six positional fields. -/
theorem claim8_witness :
    ∃ r : Row, r ∈ (Page.mk [rowFull]).rows ∧ rowMatches r = true
      ∧ 0 < r.cells.length
      ∧ (rowRecord rowFull).mlsNumber = getField r.cells 0
      ∧ (rowRecord rowFull).address = getField r.cells 1
      ∧ (rowRecord rowFull).price = getField r.cells 2
      ∧ (rowRecord rowFull).beds = getField r.cells 3
      ∧ (rowRecord rowFull).baths = getField r.cells 4
      ∧ (rowRecord rowFull).sqft = getField r.cells 5 :=
  claim8_six_string_fields ⟨[rowFull]⟩ (rowRecord rowFull) (by decide)

/-- Claim C9: a row that matches the selector but has zero `td` cells
contributes no record: the extraction of a page containing it equals the
extraction of the same page with that row removed. -/
theorem claim9_zero_cell_row_skipped (pre post : List Row) (r : Row)
    (h1 : rowMatches r = true) (h2 : r.cells = []) :
    scrapeProperties ⟨pre ++ r :: post⟩ = scrapeProperties ⟨pre ++ post⟩ := by
  unfold scrapeProperties
  simp [List.filter_append, List.filter_cons, h1, List.filterMap_append,
        List.filterMap_cons, hasCells, h2]

/-- Claim C9 witness: inserting the concrete zero-cell matching row
between two ordinary rows leaves the extraction unchanged. -/
theorem claim9_witness :
    scrapeProperties ⟨[rowFull] ++ rowNoCells :: [rowTwoCells]⟩
      = scrapeProperties ⟨[rowFull] ++ [rowTwoCells]⟩ :=
  claim9_zero_cell_row_skipped [rowFull] [rowTwoCells] rowNoCells
    (by decide) (by decide)

/-- Claim C10: the extraction is total and its cell accesses are guarded:
an out-of-range cell index yields the empty string, a cell whose text is
`null` yields the empty string, and every page yields a list of records
no longer than the list of matched rows. -/
theorem claim10_total_and_guarded (p : Page) (cells : List Cell) (i : Nat)
    (c : Cell) :
    (cells.length ≤ i → getField cells i = "")
    ∧ (cells.get? i = some c → c.text = none → getField cells i = "")
    ∧ (scrapeProperties p).length ≤ (p.rows.filter rowMatches).length := by
  refine ⟨?_, ?_, ?_⟩
  · intro h
    refine getField_of_no_text ?_
    rw [List.get?_eq_none.mpr h]
    rfl
  · intro hsome htext
    refine getField_of_no_text ?_
    rw [hsome]
    exact htext
  · rw [scrapeProperties_eq, List.length_map]
    exact List.length_filter_le _ _

/-- Claim C10 witness: position 5 of a two-cell row and a concrete
`null`-text cell both yield the empty string, and a concrete page yields
no more records than matched rows. -/
theorem claim10_witness :
    getField rowTwoCells.cells 5 = ""
    ∧ getField rowWs.cells 1 = ""
    ∧ (scrapeProperties (Page.mk [rowFull, rowOther])).length
        ≤ ((Page.mk [rowFull, rowOther]).rows.filter rowMatches).length :=
  ⟨(claim10_total_and_guarded ⟨[]⟩ rowTwoCells.cells 5 ⟨none⟩).1 (by decide),
   (claim10_total_and_guarded ⟨[]⟩ rowWs.cells 1 ⟨none⟩).2.1 (by decide)
     (by decide),
   (claim10_total_and_guarded ⟨[rowFull, rowOther]⟩ [] 0 ⟨none⟩).2.2⟩
